import Mathlib

/-!
Verification development for the theme CLI core: the throttled REST API
client (`request` dispatch, 403/422/429 handling), the bulk-upload
coordinator, the checksum diff engine, and the hot-reload event bus with
its in-memory override cache.  Definitions are shallow embeddings of
`packages/cli-kit/src/public/node/themes/api.ts` and
`packages/theme/src/cli/utilities/theme-environment/hot-reload.ts`;
components whose implementation lives outside the embedded sources
(the REST throttler, the bulk-result factory, the diff engine, the admin
URL helper) are modelled from the specification and marked as such.
-/

namespace ThemeCli

/-- Admin session: token plus the store domain (`storeFqdn`). -/
structure AdminSession where
  token : String
  storeFqdn : String
deriving Repr, DecidableEq

/-- A remote asset payload as it appears in bulk-upload reply bodies
(`{key, checksum, value, attachment}`). -/
structure RemoteAsset where
  key : String
  checksum : String
  value : String
  attachment : String
deriving Repr, DecidableEq

/-- Error payload of a failed per-asset entry, e.g.
`{asset: ["expected Hash to be a String"]}`: a map from field name to
messages. -/
def ErrorsPayload := List (String × List String)
deriving Repr, DecidableEq

/-- Body of one entry of a 207 bulk-upload reply: an `asset` object on
success or an `errors` object on failure. -/
structure BulkEntryBody where
  asset : Option RemoteAsset
  errors : Option ErrorsPayload
deriving Repr, DecidableEq

/-- One entry (`{code, body}`) of the `results` array of a 207 reply. -/
structure BulkEntry where
  code : Nat
  body : BulkEntryBody
deriving Repr, DecidableEq

/-- The JSON body of a REST response, restricted to the fields the
embedded code reads: `message` (a string when present), the serialized
`errors` value (`JSON.stringify(response.json?.errors)` is modelled by
storing the serialization), and the `results` array of bulk replies. -/
structure JsonBody where
  message : Option String
  errorsSerialized : Option String
  results : List BulkEntry
deriving Repr, DecidableEq

/-- A REST response: status, the `retry-after` header value in seconds
(read only on 429), and the JSON body. -/
structure RestResponse where
  status : Nat
  retryAfter : Nat
  json : JsonBody
deriving Repr, DecidableEq

/-- Errors raised by the client.  `abort m t` is `AbortError(m, t)`
(message plus optional try-message); `noResponse` is the artifact of
running the retry loop against a finite script of server responses that
has been exhausted. -/
inductive ApiError where
  | abort (message : String) (tryMessage : Option String)
  | noResponse
deriving Repr, DecidableEq

/-- `errors(response)`: the serialized validation errors
(`JSON.stringify` of an absent field yields `undefined`). -/
def errors (r : RestResponse) : String :=
  match r.json.errorsSerialized with
  | some s => s
  | none => "undefined"

/-- `errorMessage(response)`: `response.json?.message` when it is a
string, `''` otherwise. -/
def errorMessage (r : RestResponse) : String :=
  (r.json.message).getD ""

/-- Contiguous-sublist check on character lists. -/
def listIsInfixOf : List Char → List Char → Bool
  | pat, [] => pat.isEmpty
  | pat, l@(_ :: t) => pat.isPrefixOf l || listIsInfixOf pat t

/-- Substring containment on strings; models a JS regex match against a
pattern with no metacharacters (`error.match(/Cannot delete generated
asset/) !== null`). -/
def strContains (s pat : String) : Bool :=
  listIsInfixOf pat.toList s.toList

/-- Modelled from the spec: `storeAdminUrl` (from `themes/urls.ts`, not
among the embedded sources) produces "the affected store's admin URL"
(§4.1); the admin URL of a store is `https://<store>/admin`. -/
def storeAdminUrl (session : AdminSession) : String :=
  "https://" ++ session.storeFqdn ++ "/admin"

/-- First part of the guidance text of the generic 403 error, up to the
interpolated admin URL. -/
def notAuthorizedGuidancePre : String :=
  "You can\x27t use Shopify CLI with development stores if you only have Partner staff " ++
    "member access. If you want to use Shopify CLI to work on a development store, then " ++
    "you should be the store owner or create a staff account on the store." ++
    "\n\n" ++
    "If you\x27re the store owner, then you need to log in to the store directly using the " ++
    "store URL at least once (for example, using \""

/-- Second part of the guidance text of the generic 403 error, after the
interpolated admin URL. -/
def notAuthorizedGuidancePost : String :=
  "\") before you log in using " ++
    "Shopify CLI. Logging in to the Shopify admin directly connects the development " ++
    "store with your Shopify login."

/-- Headline of the generic 403 error, naming the affected store. -/
def notAuthorizedHeadline (session : AdminSession) : String :=
  "You are not authorized to edit themes on \"" ++ session.storeFqdn ++ "\"."

/-- `handleForbiddenError(response, session)`: surface the body message
verbatim when it matches "Cannot delete generated asset", otherwise the
fixed not-authorized error with guidance naming the store's admin URL. -/
def handleForbiddenError (session : AdminSession) (r : RestResponse) : ApiError :=
  let error := errorMessage r
  if strContains error "Cannot delete generated asset" then
    .abort error none
  else
    .abort (notAuthorizedHeadline session)
      (some (notAuthorizedGuidancePre ++ storeAdminUrl session ++ notAuthorizedGuidancePost))

/-- Outcome of dispatching on one response's status: return the response
to the caller, retry the identical request (429), or raise. -/
inductive DispatchOutcome where
  | done (r : RestResponse)
  | retry
  | fail (e : ApiError)
deriving Repr, DecidableEq

/-- The status dispatch of `request` (the `switch (true)` over `status`),
in source case order: 200–399, 404, 429, 403, 401, 422, other 4xx, 5xx,
default. -/
def requestDispatch (session : AdminSession) (r : RestResponse) : DispatchOutcome :=
  if 200 ≤ r.status ∧ r.status ≤ 399 then .done r
  else if r.status = 404 then .done r
  else if r.status = 429 then .retry
  else if r.status = 403 then .fail (handleForbiddenError session r)
  else if r.status = 401 then .fail (.abort "[401] API request unauthorized error" none)
  else if r.status = 422 then
    .fail (.abort ("[422] API request unprocessable content: " ++ errors r) none)
  else if 400 ≤ r.status ∧ r.status ≤ 499 then
    .fail (.abort ("[" ++ toString r.status ++ "] API request client error") none)
  else if 500 ≤ r.status ∧ r.status ≤ 599 then
    .fail (.abort ("[" ++ toString r.status ++ "] API request server error") none)
  else .fail (.abort ("[" ++ toString r.status ++ "] API request unexpected error") none)

/-- Observable actions of a run of `request`: issuing the HTTP call with
its method, path, body params and search params, and sleeping (the
throttler's retry-after backoff). -/
inductive Action (α : Type) where
  | issue (method path : String) (params : α) (query : List (String × String))
  | sleep (seconds : Nat)
deriving Repr, DecidableEq

/-- `request(method, path, session, params, searchParams)` run against a
finite script of server responses, one response per issued attempt.
The 429 arm is `throttler.delayAwareRetry(response, () => request(...))`,
modelled from the spec: read the `retry-after` header (seconds), sleep
that duration, then re-issue the identical request (the source re-invokes
`request` with the same `method`, `path`, `session`, `params`,
`searchParams`).  Returns the trace of actions and the final outcome. -/
def request {α : Type} (session : AdminSession) (method path : String) (params : α)
    (query : List (String × String)) :
    List RestResponse → List (Action α) × Except ApiError RestResponse
  | [] => ([], .error .noResponse)
  | r :: rest =>
    match requestDispatch session r with
    | .done r' => ([.issue method path params query], .ok r')
    | .fail e => ([.issue method path params query], .error e)
    | .retry =>
      let next := request session method path params query rest
      (.issue method path params query :: .sleep r.retryAfter :: next.1, next.2)

/-- Parameters of one asset in a bulk-upload call: key plus optional
`value` or `attachment`. -/
structure AssetParams where
  key : String
  value : Option String
  attachment : Option String
deriving Repr, DecidableEq

/-- One element of the result list of `bulkUploadThemeAssets`
(`{key, success, errors, operation, asset}`). -/
structure UploadResult where
  key : String
  success : Bool
  errors : ErrorsPayload
  operation : String
  asset : Option RemoteAsset
deriving Repr, DecidableEq

/-- Originating key of the reply entry at position `i`: the key reported
in the entry's asset body when it correlates with an input asset,
otherwise the input key at the same position. -/
def originatingKey (assets : List AssetParams) (entry : BulkEntry) (i : Nat) : String :=
  let positional := ((assets.get? i).map (fun a => a.key)).getD ""
  match entry.body.asset with
  | some a => if (assets.map (fun p => p.key)).contains a.key then a.key else positional
  | none => positional

/-- Modelled from the spec: `buildBulkUploadResults` (from
`themes/factories.ts`, not among the embedded sources).  Per §4.3 the
coordinator "zips each reply entry back to its originating asset key
(not by positional index alone — by correlating the reported key when
present, falling back to positional order otherwise) and classifies
`code == 2xx` as success"; each result carries the `UPLOAD` operation,
the reply's errors payload (empty when absent) and its asset body. -/
def buildBulkUploadResults (results : List BulkEntry) (assets : List AssetParams) :
    List UploadResult :=
  results.enum.map fun ie =>
    { key := originatingKey assets ie.2 ie.1
      success := decide (200 ≤ ie.2.code ∧ ie.2.code ≤ 299)
      errors := (ie.2.body.errors).getD []
      operation := "UPLOAD"
      asset := ie.2.body.asset }

/-- The outcome of the `request('PUT', /themes/id/assets/bulk, ...)` call
issued by `bulkUploadThemeAssets`, run against a response script. -/
def bulkRequestOutcome (session : AdminSession) (id : Nat) (assets : List AssetParams)
    (responses : List RestResponse) : Except ApiError RestResponse :=
  (request session "PUT" ("/themes/" ++ toString id ++ "/assets/bulk") assets [] responses).2

/-- `bulkUploadThemeAssets(id, assets, session)`: issue the bulk PUT;
raise `AbortError` unless the overall status is 207; otherwise build the
per-asset results from `response.json.results`. -/
def bulkUploadThemeAssets (session : AdminSession) (id : Nat) (assets : List AssetParams)
    (responses : List RestResponse) : Except ApiError (List UploadResult) :=
  match bulkRequestOutcome session id assets responses with
  | .error e => .error e
  | .ok r =>
    if r.status ≠ 207 then .error (.abort "Upload failed, could not reach the server" none)
    else .ok (buildBulkUploadResults r.json.results assets)

/-- `Boolean(x)` on an optional string: `false` for an absent value and
for the empty string, `true` otherwise. -/
def jsBooleanOfString : Option String → Bool
  | none => false
  | some s => s ≠ ""

/-- `deleteThemeAsset(id, key, session)`: issue the DELETE and report
`Boolean(response.json.message)`. -/
def deleteThemeAsset (session : AdminSession) (id : Nat) (key : String)
    (responses : List RestResponse) : Except ApiError Bool :=
  match (request session "DELETE" ("/themes/" ++ toString id ++ "/assets") (none : Option Unit)
      [("asset[key]", key)] responses).2 with
  | .error e => .error e
  | .ok r => .ok (jsBooleanOfString r.json.message)

/-- A remote checksum manifest entry: `{key, checksum|null}`. -/
structure ChecksumEntry where
  key : String
  checksum : Option String
deriving Repr, DecidableEq

/-- A local file listing entry: `{key, checksum}`. -/
structure LocalFile where
  key : String
  checksum : String
deriving Repr, DecidableEq

/-- The three disjoint key sets of a sync pass. -/
structure SyncPlan where
  toUpload : List String
  toDelete : List String
  unchanged : List String
deriving Repr, DecidableEq

/-- Remote manifest after the `excludeGenerated` filtering: per §4.2,
server-generated derived assets "are dropped from consideration entirely
before diffing". -/
def effectiveRemote (remote : List ChecksumEntry) (isGenerated : String → Bool)
    (excludeGenerated : Bool) : List ChecksumEntry :=
  if excludeGenerated then remote.filter (fun r => !(isGenerated r.key)) else remote

/-- Modelled from the spec: the checksum diff engine
`plan(remoteChecksums, localFiles, excludeGenerated)` (§4.2) is not among
the embedded sources.  Rules: local-only keys upload; remote-only keys
delete, except that a `null` remote checksum always forces upload
regardless of the local side (§4.2 and the §8 end-to-end scenario);
differing checksums upload; identical checksums are unchanged. -/
def plan (remote : List ChecksumEntry) (localFiles : List LocalFile)
    (isGenerated : String → Bool) (excludeGenerated : Bool) : SyncPlan :=
  let remote := effectiveRemote remote isGenerated excludeGenerated
  let remoteOf := fun (k : String) => (remote.find? (fun r => r.key == k)).map (fun r => r.checksum)
  let localOf := fun (k : String) => localFiles.find? (fun l => l.key == k)
  let uploadLocal := (localFiles.filter (fun l =>
    match remoteOf l.key with
    | none => true
    | some none => true
    | some (some c) => c ≠ l.checksum)).map (fun l => l.key)
  let uploadRemoteNull := (remote.filter (fun r =>
    r.checksum = none && (localOf r.key).isNone)).map (fun r => r.key)
  { toUpload := uploadLocal ++ uploadRemoteNull
    toDelete := (remote.filter (fun r =>
      (localOf r.key).isNone && r.checksum ≠ none)).map (fun r => r.key)
    unchanged := (localFiles.filter (fun l => remoteOf l.key = some (some l.checksum))).map
      (fun l => l.key) }

/-- A parsed JSON template's section table: the `sections` object maps an
instance name to its `{type}` entry; `none` models an absent `sections`
field (`sections || {}`). -/
structure TemplateWithSections where
  sections : Option (List (String × String))
deriving Repr, DecidableEq

/-- A hot-reload event: a targeted `section` event carrying the changed
key and the affected instance names, or a generic `other` event. -/
inductive HotReloadEvent where
  | section (key : String) (names : List String)
  | other (key : String)
deriving Repr, DecidableEq

/-- `key.split('/')[0]`: the characters before the first `/` (the whole
string when there is none). -/
def jsSplitHead (s : String) : String :=
  String.mk (s.toList.takeWhile (fun c => !(c == '/')))

/-- `true` when no character is a JS line terminator (which `.` in a
regex never matches). -/
def noLineTerminator (l : List Char) : Bool :=
  !(l.any (fun c => c == '\n' || c == '\r' || c == '\u2028' || c == '\u2029'))

/-- `key.match(/^sections\/(.+)\.liquid$/)?.[1]`: the capture between the
`sections/` prefix and the `.liquid` suffix, which must be nonempty and
free of line terminators. -/
def sectionKeyBasename (key : String) : Option String :=
  if ("sections/".toList).isPrefixOf key.toList && (".liquid".toList).isSuffixOf key.toList &&
      decide (16 < key.toList.length) &&
      noLineTerminator ((key.toList.drop 9).take (key.toList.length - 16)) then
    some (String.mk ((key.toList.drop 9).take (key.toList.length - 16)))
  else none

/-- The `sectionsToUpdate` accumulation of `hotReloadSections`: every
instance name, over all parsed JSON templates in order, whose section
entry's `type` equals the changed key's basename. -/
def collectSectionNames (parsed : List (String × TemplateWithSections)) (sectionId : String) :
    List String :=
  parsed.flatMap fun kt =>
    (kt.2.sections.getD []).filterMap fun nt =>
      if nt.2 == sectionId then some nt.1 else none

/-- `hotReloadSections(key)`: no event when the key does not match
`^sections\/(.+)\.liquid$`, otherwise a `section` event carrying the key
and the referencing instance names (possibly none). -/
def hotReloadSections (parsed : List (String × TemplateWithSections)) (key : String) :
    Option HotReloadEvent :=
  match sectionKeyBasename key with
  | none => none
  | some sectionId => some (.section key (collectSectionNames parsed sectionId))

/-- `triggerHotReload(key)`: dispatch on the key's first path segment —
`sections` keys go through `hotReloadSections`, every other key emits an
`other` event.  The result is the event published on the bus (`none` when
nothing is emitted). -/
def triggerHotReload (parsed : List (String × TemplateWithSections)) (key : String) :
    Option HotReloadEvent :=
  if jsSplitHead key = "sections" then hotReloadSections parsed key
  else some (.other key)

/-- JS object property write `obj[key] = v`: replace the value in place
when the key exists, append otherwise. -/
def objInsert {α : Type} (m : List (String × α)) (k : String) (v : α) : List (String × α) :=
  if m.any (fun p => p.1 == k) then m.map (fun p => if p.1 == k then (k, v) else p)
  else m ++ [(k, v)]

/-- JS object property delete `delete obj[key]`. -/
def objDelete {α : Type} (m : List (String × α)) (k : String) : List (String × α) :=
  m.filter (fun p => !(p.1 == k))

/-- Watcher state under an explicit heap of object references: cell `0`
holds the module-level `inMemoryTemplates` object, later cells hold the
snapshot objects returned by `getInMemoryTemplates`; the
`parsedJsonTemplates` object is never aliased out, so it is kept
directly. -/
structure WatcherState where
  heap : List (Nat × List (String × String))
  nextRef : Nat
  parsedJsonTemplates : List (String × TemplateWithSections)

/-- Value of the object at reference `r`. -/
def heapGet (h : List (Nat × List (String × String))) (r : Nat) :
    Option (List (String × String)) :=
  (h.find? (fun c => c.1 == r)).map (fun c => c.2)

/-- Overwrite the object at reference `r`. -/
def heapSet (h : List (Nat × List (String × String))) (r : Nat)
    (v : List (String × String)) : List (Nat × List (String × String)) :=
  h.map (fun c => if c.1 == r then (r, v) else c)

/-- `getInMemoryTemplates()`: return `{...inMemoryTemplates}` — a fresh
object (a new reference) holding a shallow copy of the cache's current
entries. -/
def getInMemoryTemplates (s : WatcherState) : Nat × WatcherState :=
  (s.nextRef,
    { heap := (s.nextRef, (heapGet s.heap 0).getD []) :: s.heap
      nextRef := s.nextRef + 1
      parsedJsonTemplates := s.parsedJsonTemplates })

/-- `setInMemoryTemplate(key, content)`: write the cache entry in place;
for `.json` keys also store the parsed content (`JSON.parse` is external,
so the parsed value is passed in). -/
def setInMemoryTemplate (s : WatcherState) (key content : String)
    (parsedContent : TemplateWithSections) : WatcherState :=
  { heap := heapSet s.heap 0 (objInsert ((heapGet s.heap 0).getD []) key content)
    nextRef := s.nextRef
    parsedJsonTemplates :=
      if key.endsWith ".json" then objInsert s.parsedJsonTemplates key parsedContent
      else s.parsedJsonTemplates }

/-- `deleteInMemoryTemplate(key)`: remove the cache entry and any parsed
entry in place. -/
def deleteInMemoryTemplate (s : WatcherState) (key : String) : WatcherState :=
  { heap := heapSet s.heap 0 (objDelete ((heapGet s.heap 0).getD []) key)
    nextRef := s.nextRef
    parsedJsonTemplates := objDelete s.parsedJsonTemplates key }

/-- A subsequent mutation of the override cache. -/
inductive CacheOp where
  | set (key content : String) (parsedContent : TemplateWithSections)
  | del (key : String)

/-- Apply a sequence of cache mutations in order. -/
def applyCacheOps (s : WatcherState) : List CacheOp → WatcherState
  | [] => s
  | .set k c p :: ops => applyCacheOps (setInMemoryTemplate s k c p) ops
  | .del k :: ops => applyCacheOps (deleteInMemoryTemplate s k) ops

theorem isPrefixOf_append_self (l t : List Char) : l.isPrefixOf (l ++ t) = true := by
  induction l with
  | nil => simp [List.isPrefixOf]
  | cons a as ih => simp [List.isPrefixOf, ih]

theorem listIsInfixOf_nil_left (b : List Char) : listIsInfixOf [] b = true := by
  induction b with
  | nil => rfl
  | cons x xs ih => simp [listIsInfixOf, List.isPrefixOf, ih]

theorem listIsInfixOf_self_append (m b : List Char) : listIsInfixOf m (m ++ b) = true := by
  cases m with
  | nil => simpa using listIsInfixOf_nil_left b
  | cons c ms => simp [listIsInfixOf, List.isPrefixOf, isPrefixOf_append_self]

theorem listIsInfixOf_append (m a b : List Char) : listIsInfixOf m (a ++ (m ++ b)) = true := by
  induction a with
  | nil => simpa using listIsInfixOf_self_append m b
  | cons x xs ih => simp [listIsInfixOf, ih]

theorem strContains_append (a m b : String) : strContains (a ++ m ++ b) m = true := by
  have h : (a ++ m ++ b).toList = a.toList ++ (m.toList ++ b.toList) := by
    show (a ++ m ++ b).data = a.data ++ (m.data ++ b.data)
    simp [String.data_append]
  simp [strContains, h, listIsInfixOf_append]

set_option maxHeartbeats 2000000 in
/-- C5: the `request` status dispatch is exhaustive and mutually
exclusive: the response is returned unchanged exactly when its status is
in 200–399 or is 404; 401 and 422 (whose message serializes the
validation errors) raise fatally, as do 403, every other 4xx apart from
the retried 429, and every 5xx. -/
theorem request_dispatch_status_ranges (session : AdminSession) (r : RestResponse) :
    ((∃ r', requestDispatch session r = .done r') ↔
      ((200 ≤ r.status ∧ r.status ≤ 399) ∨ r.status = 404)) ∧
    (∀ r', requestDispatch session r = .done r' → r' = r) ∧
    (r.status = 401 → requestDispatch session r =
      .fail (.abort "[401] API request unauthorized error" none)) ∧
    (r.status = 422 → requestDispatch session r =
      .fail (.abort ("[422] API request unprocessable content: " ++ errors r) none)) ∧
    (400 ≤ r.status → r.status ≤ 499 → r.status ≠ 404 → r.status ≠ 429 →
      ∃ e, requestDispatch session r = .fail e) ∧
    (500 ≤ r.status → r.status ≤ 599 → ∃ e, requestDispatch session r = .fail e) := by
  unfold requestDispatch
  split_ifs with h1 h2 h3 h4 h5 h6 h7 h8 <;>
    refine ⟨?_, ?_, ?_, ?_, ?_, ?_⟩ <;>
    first
      | exact iff_of_true ⟨_, rfl⟩ (by omega)
      | exact iff_of_false (by rintro ⟨r', hx⟩; cases hx) (by omega)
      | (intro r' hx; injection hx with hh; exact hh.symm)
      | (intro r' hx; cases hx)
      | (intros; rfl)
      | (intros; exact ⟨_, rfl⟩)
      | (intros; omega)

/-- C5 witness: a 422 response raises the fatal error carrying the
serialized validation payload. -/
theorem request_dispatch_status_ranges_witness :
    requestDispatch ⟨"token", "my-shop.myshopify.com"⟩
        ⟨422, 0, ⟨none, some "validation details", []⟩⟩ =
      .fail (.abort ("[422] API request unprocessable content: " ++
        errors ⟨422, 0, ⟨none, some "validation details", []⟩⟩) none) :=
  (request_dispatch_status_ranges ⟨"token", "my-shop.myshopify.com"⟩
    ⟨422, 0, ⟨none, some "validation details", []⟩⟩).2.2.2.1 rfl

/-- C4: a 403 response whose body message matches "Cannot delete
generated asset" raises that exact message verbatim; any other 403 body
raises the fixed not-authorized error, whose headline names the affected
store and whose guidance contains the store's admin URL. -/
theorem forbidden_message_classification (session : AdminSession) (r : RestResponse) :
    (strContains (errorMessage r) "Cannot delete generated asset" = true →
      handleForbiddenError session r = .abort (errorMessage r) none) ∧
    (strContains (errorMessage r) "Cannot delete generated asset" = false →
      handleForbiddenError session r = .abort (notAuthorizedHeadline session)
        (some (notAuthorizedGuidancePre ++ storeAdminUrl session ++
          notAuthorizedGuidancePost)) ∧
      strContains (notAuthorizedHeadline session) session.storeFqdn = true ∧
      strContains (notAuthorizedGuidancePre ++ storeAdminUrl session ++
        notAuthorizedGuidancePost) (storeAdminUrl session) = true) ∧
    (r.status = 403 → requestDispatch session r = .fail (handleForbiddenError session r)) := by
  refine ⟨fun h => ?_, fun h => ⟨?_, ?_, ?_⟩, fun h => ?_⟩
  · simp [handleForbiddenError, h]
  · simp [handleForbiddenError, h]
  · exact strContains_append "You are not authorized to edit themes on \""
      session.storeFqdn "\"."
  · exact strContains_append notAuthorizedGuidancePre (storeAdminUrl session)
      notAuthorizedGuidancePost
  · simp [requestDispatch, h]

/-- C4 witness: a 403 body matching the generated-asset pattern is
surfaced verbatim; an empty body yields the generic error. -/
theorem forbidden_message_classification_witness :
    handleForbiddenError ⟨"token", "my-shop.myshopify.com"⟩
        ⟨403, 0, ⟨some "Cannot delete generated asset assets/a.css.", none, []⟩⟩ =
      .abort "Cannot delete generated asset assets/a.css." none ∧
    handleForbiddenError ⟨"token", "my-shop.myshopify.com"⟩ ⟨403, 0, ⟨none, none, []⟩⟩ =
      .abort (notAuthorizedHeadline ⟨"token", "my-shop.myshopify.com"⟩)
        (some (notAuthorizedGuidancePre ++
          storeAdminUrl ⟨"token", "my-shop.myshopify.com"⟩ ++ notAuthorizedGuidancePost)) :=
  ⟨(forbidden_message_classification ⟨"token", "my-shop.myshopify.com"⟩
      ⟨403, 0, ⟨some "Cannot delete generated asset assets/a.css.", none, []⟩⟩).1 (by decide),
   ((forbidden_message_classification ⟨"token", "my-shop.myshopify.com"⟩
      ⟨403, 0, ⟨none, none, []⟩⟩).2.1 (by decide)).1⟩

/-- C1: dispatching a 429 response sleeps for the retry-after value read
from the response and then re-issues the identical request (same method,
path, params and query); the 429 itself is never surfaced — the call's
outcome is the outcome of the re-issued request. -/
theorem request_429_sleeps_and_reissues {α : Type} (session : AdminSession)
    (method path : String) (params : α) (query : List (String × String))
    (r : RestResponse) (rest : List RestResponse) (h : r.status = 429) :
    request session method path params query (r :: rest) =
      (.issue method path params query :: .sleep r.retryAfter ::
          (request session method path params query rest).1,
        (request session method path params query rest).2) ∧
    ∀ r2 rest2, rest = r2 :: rest2 →
      (request session method path params query rest).1.head? =
        some (.issue method path params query) := by
  have hd : requestDispatch session r = .retry := by simp [requestDispatch, h]
  refine ⟨by simp [request, hd], ?_⟩
  intro r2 rest2 hrest
  subst hrest
  cases hdd : requestDispatch session r2 <;> simp [request, hdd]

/-- C1 witness: a 429 with `retry-after: 2` issues, sleeps 2 seconds and
re-issues the identical request. -/
theorem request_429_sleeps_and_reissues_witness :
    (⟨429, 2, ⟨none, none, []⟩⟩ : RestResponse).status = 429 ∧
    request ⟨"token", "my-shop.myshopify.com"⟩ "GET" "/themes/1/assets" ()
        [("asset[key]", "x")] [⟨429, 2, ⟨none, none, []⟩⟩, ⟨200, 0, ⟨none, none, []⟩⟩] =
      (.issue "GET" "/themes/1/assets" () [("asset[key]", "x")] :: .sleep 2 ::
          (request ⟨"token", "my-shop.myshopify.com"⟩ "GET" "/themes/1/assets" ()
            [("asset[key]", "x")] [⟨200, 0, ⟨none, none, []⟩⟩]).1,
        (request ⟨"token", "my-shop.myshopify.com"⟩ "GET" "/themes/1/assets" ()
          [("asset[key]", "x")] [⟨200, 0, ⟨none, none, []⟩⟩]).2) :=
  ⟨rfl, (request_429_sleeps_and_reissues ⟨"token", "my-shop.myshopify.com"⟩ "GET"
    "/themes/1/assets" () [("asset[key]", "x")] ⟨429, 2, ⟨none, none, []⟩⟩
    [⟨200, 0, ⟨none, none, []⟩⟩] rfl).1⟩

/-- C3: when the bulk PUT resolves with a non-207 status the call raises
(`AbortError`, no partial results); when it resolves with 207 the
per-asset results — including per-asset failures — are returned, not
raised. -/
theorem bulk_upload_raises_unless_207 (session : AdminSession) (id : Nat)
    (assets : List AssetParams) (responses : List RestResponse) (r : RestResponse)
    (h : bulkRequestOutcome session id assets responses = .ok r) :
    (r.status ≠ 207 → bulkUploadThemeAssets session id assets responses =
      .error (.abort "Upload failed, could not reach the server" none)) ∧
    (r.status = 207 → bulkUploadThemeAssets session id assets responses =
      .ok (buildBulkUploadResults r.json.results assets)) := by
  unfold bulkUploadThemeAssets
  rw [h]
  exact ⟨fun h2 => by simp [h2], fun h2 => by simp [h2]⟩

/-- C3 witness: a 404 reply to the bulk PUT (returned as-is by the
dispatch) makes `bulkUploadThemeAssets` raise instead of returning
results. -/
theorem bulk_upload_raises_unless_207_witness :
    bulkRequestOutcome ⟨"token", "my-shop.myshopify.com"⟩ 123
        [⟨"snippets/a.liquid", some "content", none⟩] [⟨404, 0, ⟨none, none, []⟩⟩] =
      .ok ⟨404, 0, ⟨none, none, []⟩⟩ ∧
    bulkUploadThemeAssets ⟨"token", "my-shop.myshopify.com"⟩ 123
        [⟨"snippets/a.liquid", some "content", none⟩] [⟨404, 0, ⟨none, none, []⟩⟩] =
      .error (.abort "Upload failed, could not reach the server" none) :=
  ⟨rfl,
   (bulk_upload_raises_unless_207 ⟨"token", "my-shop.myshopify.com"⟩ 123
      [⟨"snippets/a.liquid", some "content", none⟩] [⟨404, 0, ⟨none, none, []⟩⟩]
      ⟨404, 0, ⟨none, none, []⟩⟩ rfl).1 (by decide)⟩

/-- C2: a 207 bulk reply with a 200 entry (asset body) and a 400 entry
(errors payload) for two input assets yields results in input order:
index 0 is success with the returned asset and index 1 is failure with
the returned errors, each correlated to its originating key (positional
fallback here, the reported key matching no input); in general a
result's success flag is exactly whether its entry's code is 2xx, and
one result is produced per reply entry. -/
theorem bulk_upload_207_per_asset_results (session : AdminSession) (id : Nat)
    (a1 a2 : AssetParams) (ra : RemoteAsset) (errs : ErrorsPayload) (resp : RestResponse)
    (hst : resp.status = 207)
    (hres : resp.json.results = [⟨200, ⟨some ra, none⟩⟩, ⟨400, ⟨none, some errs⟩⟩])
    (hk1 : ra.key ≠ a1.key) (hk2 : ra.key ≠ a2.key) :
    bulkUploadThemeAssets session id [a1, a2] [resp] =
      .ok [⟨a1.key, true, [], "UPLOAD", some ra⟩, ⟨a2.key, false, errs, "UPLOAD", none⟩] ∧
    (∀ (entries : List BulkEntry) (assets : List AssetParams) (i : Nat),
      ((buildBulkUploadResults entries assets).get? i).map (fun u => u.success) =
        (entries.get? i).map (fun e => decide (200 ≤ e.code ∧ e.code ≤ 299))) ∧
    (∀ (entries : List BulkEntry) (assets : List AssetParams),
      (buildBulkUploadResults entries assets).length = entries.length) := by
  have hd : requestDispatch session resp = .done resp := by
    unfold requestDispatch
    rw [if_pos]
    omega
  refine ⟨?_, ?_, ?_⟩
  · unfold bulkUploadThemeAssets bulkRequestOutcome
    simp only [request, hd]
    rw [if_neg (by omega)]
    simp [buildBulkUploadResults, originatingKey, hres, List.enum, hk1.symm, hk2.symm,
      UploadResult.mk.injEq]
    exact fun h => absurd h (not_or.mpr ⟨hk1, hk2⟩)
  · intro entries assets i
    simp [buildBulkUploadResults, List.get?_eq_getElem?, List.getElem?_map,
      List.getElem?_enum]
    cases entries[i]? <;> rfl
  · intro entries assets
    simp [buildBulkUploadResults]

/-- C2 witness: the two-asset scenario from the repository's own test
(reported key `assets/test.liquid` matching neither input). -/
theorem bulk_upload_207_per_asset_results_witness :
    bulkUploadThemeAssets ⟨"token", "my-shop.myshopify.com"⟩ 123
        [⟨"snippets/product-variant-picker.liquid", some "content", none⟩,
          ⟨"templates/404.json", some "to_be_replaced_with_hash", none⟩]
        [⟨207, 0, ⟨none, none,
          [⟨200, ⟨some ⟨"assets/test.liquid", "3f26c8569292ce6f1cc991c5fa7d3fcb", "", ""⟩,
            none⟩⟩,
           ⟨400, ⟨none, some [("asset", ["expected Hash to be a String"])]⟩⟩]⟩⟩] =
      .ok [⟨"snippets/product-variant-picker.liquid", true, [], "UPLOAD",
            some ⟨"assets/test.liquid", "3f26c8569292ce6f1cc991c5fa7d3fcb", "", ""⟩⟩,
           ⟨"templates/404.json", false, [("asset", ["expected Hash to be a String"])],
            "UPLOAD", none⟩] :=
  (bulk_upload_207_per_asset_results ⟨"token", "my-shop.myshopify.com"⟩ 123
    ⟨"snippets/product-variant-picker.liquid", some "content", none⟩
    ⟨"templates/404.json", some "to_be_replaced_with_hash", none⟩
    ⟨"assets/test.liquid", "3f26c8569292ce6f1cc991c5fa7d3fcb", "", ""⟩
    [("asset", ["expected Hash to be a String"])]
    ⟨207, 0, ⟨none, none,
      [⟨200, ⟨some ⟨"assets/test.liquid", "3f26c8569292ce6f1cc991c5fa7d3fcb", "", ""⟩, none⟩⟩,
       ⟨400, ⟨none, some [("asset", ["expected Hash to be a String"])]⟩⟩]⟩⟩
    rfl rfl (by decide) (by decide)).1

/-- C8: at the failing input — a successful DELETE whose body has no
message field ("already gone") — `deleteThemeAsset` reports `false`,
contradicting the repository's own test, which expects `true`. -/
theorem delete_theme_asset_absent_message_reports_false :
    deleteThemeAsset ⟨"token", "my-shop.myshopify.com"⟩ 123
        "snippets/product-variant-picker.liquid" [⟨200, 0, ⟨none, none, []⟩⟩] =
      .ok false ∧
    deleteThemeAsset ⟨"token", "my-shop.myshopify.com"⟩ 123
        "snippets/product-variant-picker.liquid"
        [⟨200, 0, ⟨some "the asset was deleted", none, []⟩⟩] = .ok true := by
  constructor <;> rfl

theorem find?_key_of_mem_nodup (l : List ChecksumEntry) (e : ChecksumEntry)
    (hmem : e ∈ l) (hnodup : (l.map (fun r => r.key)).Nodup) :
    l.find? (fun r => r.key == e.key) = some e := by
  induction l with
  | nil => cases hmem
  | cons a as ih =>
    rcases List.mem_cons.mp hmem with h | h
    · subst h
      simp [List.find?]
    · rw [List.map_cons] at hnodup
      have hnd := List.nodup_cons.mp hnodup
      have hne : (a.key == e.key) = false := by
        rw [beq_eq_false_iff_ne]
        intro hk
        exact hnd.1 (hk ▸ List.mem_map.mpr ⟨e, h, rfl⟩)
      simp only [List.find?, hne]
      exact ih h hnd.2

/-- C9: every key of the (exclusion-filtered) remote manifest whose
checksum is `null` lands in `toUpload`, whether or not the key exists
locally and whatever the local checksum is. -/
theorem null_remote_checksum_forces_upload (remote : List ChecksumEntry)
    (localFiles : List LocalFile) (isGenerated : String → Bool) (excludeGenerated : Bool)
    (entry : ChecksumEntry)
    (hmem : entry ∈ effectiveRemote remote isGenerated excludeGenerated)
    (hnull : entry.checksum = none)
    (hnodup : ((effectiveRemote remote isGenerated excludeGenerated).map
      (fun r => r.key)).Nodup) :
    entry.key ∈ (plan remote localFiles isGenerated excludeGenerated).toUpload := by
  unfold plan
  simp only [List.mem_append]
  cases hl : localFiles.find? (fun l => l.key == entry.key) with
  | none =>
    right
    simp only [List.mem_map]
    refine ⟨entry, ?_, rfl⟩
    simp only [List.mem_filter]
    exact ⟨hmem, by simp [hnull, hl]⟩
  | some l =>
    left
    have hlk : l.key = entry.key := by
      have := List.find?_some hl
      simpa using this
    have hlm : l ∈ localFiles := List.mem_of_find?_eq_some hl
    simp only [List.mem_map]
    refine ⟨l, ?_, hlk⟩
    simp only [List.mem_filter]
    refine ⟨hlm, ?_⟩
    have hfind : (effectiveRemote remote isGenerated excludeGenerated).find?
        (fun r => r.key == l.key) = some entry := by
      rw [hlk]
      exact find?_key_of_mem_nodup _ _ hmem hnodup
    simp [hfind, hnull]

/-- C9 witness: a remote `templates/404.json` with a `null` checksum and
no local counterpart is scheduled for upload. -/
theorem null_remote_checksum_forces_upload_witness :
    (⟨"templates/404.json", none⟩ : ChecksumEntry) ∈
      effectiveRemote [⟨"templates/404.json", none⟩] (fun _ => false) true ∧
    "templates/404.json" ∈
      (plan [⟨"templates/404.json", none⟩] [⟨"assets/theme.css", "A"⟩]
        (fun _ => false) true).toUpload :=
  ⟨by decide,
   null_remote_checksum_forces_upload [⟨"templates/404.json", none⟩]
     [⟨"assets/theme.css", "A"⟩] (fun _ => false) true ⟨"templates/404.json", none⟩
     (by decide) rfl (by decide)⟩

theorem heapGet_heapSet_ne (h : List (Nat × List (String × String)))
    (v : List (String × String)) (r : Nat) (hr : r ≠ 0) :
    heapGet (heapSet h 0 v) r = heapGet h r := by
  induction h with
  | nil => rfl
  | cons c cs ih =>
    obtain ⟨ck, cv⟩ := c
    have h0r : ((0 : Nat) == r) = false := beq_eq_false_iff_ne.mpr (Ne.symm hr)
    by_cases hc : ck = 0
    · subst hc
      have hb : ((0 : Nat) == (0 : Nat)) = true := rfl
      simp only [heapSet, heapGet, List.map_cons, hb, if_true, List.find?, h0r]
      simpa [heapSet, heapGet] using ih
    · have hb : (ck == (0 : Nat)) = false := beq_eq_false_iff_ne.mpr hc
      simp only [heapSet, heapGet, List.map_cons, hb, if_false, Bool.false_eq_true,
        List.find?]
      by_cases hcr : ck = r
      · have hbr : (ck == r) = true := beq_iff_eq.mpr hcr
        simp only [hbr]
      · have hbr : (ck == r) = false := beq_eq_false_iff_ne.mpr hcr
        simp only [hbr]
        simpa [heapSet, heapGet] using ih

theorem applyCacheOps_heapGet (ops : List CacheOp) (s : WatcherState) (r : Nat)
    (hr : r ≠ 0) :
    heapGet (applyCacheOps s ops).heap r = heapGet s.heap r := by
  induction ops generalizing s with
  | nil => rfl
  | cons op ops ih =>
    cases op with
    | set k c p =>
      show heapGet (applyCacheOps (setInMemoryTemplate s k c p) ops).heap r = _
      rw [ih]
      exact heapGet_heapSet_ne _ _ _ hr
    | del k =>
      show heapGet (applyCacheOps (deleteInMemoryTemplate s k) ops).heap r = _
      rw [ih]
      exact heapGet_heapSet_ne _ _ _ hr

/-- C10: the map returned by `getInMemoryTemplates` is a fresh shallow
copy of the override cache: it holds the cache's entries at snapshot
time, and it still holds exactly those entries after any sequence of
subsequent `setInMemoryTemplate`/`deleteInMemoryTemplate` calls. -/
theorem snapshot_immune_to_cache_mutations (s : WatcherState) (ops : List CacheOp)
    (h : s.nextRef ≠ 0) :
    heapGet ((getInMemoryTemplates s).2).heap (getInMemoryTemplates s).1 =
      some ((heapGet s.heap 0).getD []) ∧
    heapGet (applyCacheOps (getInMemoryTemplates s).2 ops).heap (getInMemoryTemplates s).1 =
      some ((heapGet s.heap 0).getD []) := by
  have h1 : heapGet ((getInMemoryTemplates s).2).heap (getInMemoryTemplates s).1 =
      some ((heapGet s.heap 0).getD []) := by
    show heapGet ((s.nextRef, (heapGet s.heap 0).getD []) :: s.heap) s.nextRef = _
    unfold heapGet
    rw [List.find?_cons_of_pos _ (by simp)]
    rfl
  exact ⟨h1, (applyCacheOps_heapGet ops _ _ h).trans h1⟩

theorem toList_eq_data (s : String) : s.toList = s.data := rfl

theorem key_data (name : String) : ("sections/" ++ name ++ ".liquid").data =
    ['s','e','c','t','i','o','n','s','/'] ++
      (name.data ++ ['.','l','i','q','u','i','d']) := by
  simp [String.data_append, List.append_assoc]

theorem jsSplitHead_section_key (name : String) :
    jsSplitHead ("sections/" ++ name ++ ".liquid") = "sections" := by
  unfold jsSplitHead
  rw [toList_eq_data, key_data]
  rfl

theorem sectionKeyBasename_section_key (name : String) (hne : name.toList ≠ [])
    (hnl : noLineTerminator name.toList = true) :
    sectionKeyBasename ("sections/" ++ name ++ ".liquid") = some name := by
  unfold sectionKeyBasename
  simp only [toList_eq_data, key_data]
  have hpre : ("sections/".data).isPrefixOf
      (['s','e','c','t','i','o','n','s','/'] ++
        (name.data ++ ['.','l','i','q','u','i','d'])) = true := by
    have h : "sections/".data = ['s','e','c','t','i','o','n','s','/'] := rfl
    rw [h]
    exact isPrefixOf_append_self _ _
  have hsuf : (".liquid".data).isSuffixOf
      (['s','e','c','t','i','o','n','s','/'] ++
        (name.data ++ ['.','l','i','q','u','i','d'])) = true := by
    show ((".liquid".data).reverse).isPrefixOf _ = true
    have h2 : ((['s','e','c','t','i','o','n','s','/'] : List Char) ++
        (name.data ++ ['.','l','i','q','u','i','d'])).reverse =
        (['.','l','i','q','u','i','d'] : List Char).reverse ++
          (name.data.reverse ++ (['s','e','c','t','i','o','n','s','/'] : List Char).reverse) := by
      simp [List.reverse_append]
    rw [h2]
    have h3 : (".liquid".data).reverse =
        (['.','l','i','q','u','i','d'] : List Char).reverse := rfl
    rw [h3]
    exact isPrefixOf_append_self _ _
  have hlen : ((['s','e','c','t','i','o','n','s','/'] : List Char) ++
      (name.data ++ ['.','l','i','q','u','i','d'])).length = name.data.length + 16 := by
    simp only [List.length_append, List.length_cons, List.length_nil]
    omega
  have hdec : decide (16 < ((['s','e','c','t','i','o','n','s','/'] : List Char) ++
      (name.data ++ ['.','l','i','q','u','i','d'])).length) = true := by
    rw [hlen]
    have hp : 0 < name.data.length := List.length_pos.mpr hne
    simp only [decide_eq_true_eq]
    omega
  have hdrop : ((['s','e','c','t','i','o','n','s','/'] : List Char) ++
      (name.data ++ ['.','l','i','q','u','i','d'])).drop 9 =
      name.data ++ ['.','l','i','q','u','i','d'] := rfl
  have htake : (name.data ++ (['.','l','i','q','u','i','d'] : List Char)).take
      (((['s','e','c','t','i','o','n','s','/'] : List Char) ++
        (name.data ++ ['.','l','i','q','u','i','d'])).length - 16) = name.data := by
    rw [hlen]
    have h16 : name.data.length + 16 - 16 = name.data.length := by omega
    rw [h16]
    exact List.take_left name.data _
  have hnl2 : noLineTerminator name.data = true := hnl
  rw [hdrop, htake, hpre, hsuf, hdec, hnl2]
  simp only [Bool.and_self, if_true]

theorem triggerHotReload_section_key (parsed : List (String × TemplateWithSections))
    (name : String) (hne : name.toList ≠ [])
    (hnl : noLineTerminator name.toList = true) :
    triggerHotReload parsed ("sections/" ++ name ++ ".liquid") =
      some (.section ("sections/" ++ name ++ ".liquid")
        (collectSectionNames parsed name)) := by
  unfold triggerHotReload hotReloadSections
  rw [jsSplitHead_section_key, if_pos rfl, sectionKeyBasename_section_key name hne hnl]

theorem mem_collectSectionNames (parsed : List (String × TemplateWithSections))
    (sectionId n : String) :
    n ∈ collectSectionNames parsed sectionId ↔
      ∃ p ∈ parsed, ∃ e ∈ p.2.sections.getD [], e.1 = n ∧ e.2 = sectionId := by
  simp only [collectSectionNames, List.mem_flatMap, List.mem_filterMap]
  constructor
  · rintro ⟨p, hp, e, he, hsome⟩
    by_cases hc : e.2 == sectionId
    · rw [if_pos hc] at hsome
      exact ⟨p, hp, e, he, Option.some.inj hsome, beq_iff_eq.mp hc⟩
    · rw [if_neg hc] at hsome
      cases hsome
  · rintro ⟨p, hp, e, he, h1, h2⟩
    exact ⟨p, hp, e, he, by rw [if_pos (beq_iff_eq.mpr h2), h1]⟩

/-- C6: publishing a change to `sections/<name>.liquid` emits a
`section` event carrying that key, whose names are exactly the instance
names of every section entry (across all parsed JSON templates) whose
referenced type is `<name>`. -/
theorem section_change_event_names (parsed : List (String × TemplateWithSections))
    (name : String) (hne : name.toList ≠ [])
    (hnl : noLineTerminator name.toList = true) :
    triggerHotReload parsed ("sections/" ++ name ++ ".liquid") =
      some (.section ("sections/" ++ name ++ ".liquid")
        (collectSectionNames parsed name)) ∧
    ∀ n, n ∈ collectSectionNames parsed name ↔
      ∃ p ∈ parsed, ∃ e ∈ p.2.sections.getD [], e.1 = n ∧ e.2 = name :=
  ⟨triggerHotReload_section_key parsed name hne hnl,
   fun n => mem_collectSectionNames parsed name n⟩

/-- C6 witness: two templates referencing section type `header` under
instance names `hero` and `footer-header` yield a `section` event with
exactly those names. -/
theorem section_change_event_names_witness :
    triggerHotReload
        [("templates/index.json", ⟨some [("hero", "header")]⟩),
         ("templates/page.json", ⟨some [("footer-header", "header")]⟩)]
        ("sections/" ++ "header" ++ ".liquid") =
      some (.section ("sections/" ++ "header" ++ ".liquid") ["hero", "footer-header"]) :=
  (section_change_event_names
    [("templates/index.json", ⟨some [("hero", "header")]⟩),
     ("templates/page.json", ⟨some [("footer-header", "header")]⟩)]
    "header" (by decide) (by decide)).1

/-- C7 counterexample: a `sections` key with no referencing templates
does not publish an `other` event — it publishes a `section` event with
an empty names list. -/
theorem other_event_claim_counterexample :
    triggerHotReload [] "sections/foo.liquid" =
      some (.section "sections/foo.liquid" []) ∧
    triggerHotReload [] "sections/foo.liquid" ≠
      some (.other "sections/foo.liquid") := by
  constructor
  · decide
  · decide

/-- C7 (amended): a changed key whose first path segment is not
`sections` publishes an `other` event carrying that key; a
`sections/<name>.liquid` key with no referencing templates instead
publishes a `section` event with an empty names list. -/
theorem other_event_dispatch (parsed : List (String × TemplateWithSections))
    (key : String) :
    (jsSplitHead key ≠ "sections" → triggerHotReload parsed key = some (.other key)) ∧
    (∀ name, key = "sections/" ++ name ++ ".liquid" → name.toList ≠ [] →
      noLineTerminator name.toList = true → collectSectionNames parsed name = [] →
      triggerHotReload parsed key = some (.section key [])) := by
  constructor
  · intro h
    unfold triggerHotReload
    rw [if_neg h]
  · intro name hkey hne hnl hcol
    subst hkey
    rw [triggerHotReload_section_key parsed name hne hnl, hcol]

/-- C7 witness: a key outside the sections namespace publishes `other`;
an unreferenced sections key publishes a `section` event with no
names. -/
theorem other_event_dispatch_witness :
    triggerHotReload [] "assets/style.css" = some (.other "assets/style.css") ∧
    triggerHotReload [("templates/index.json", ⟨some [("hero", "banner")]⟩)]
        ("sections/" ++ "foo" ++ ".liquid") =
      some (.section ("sections/" ++ "foo" ++ ".liquid") []) :=
  ⟨(other_event_dispatch [] "assets/style.css").1 (by decide),
   (other_event_dispatch [("templates/index.json", ⟨some [("hero", "banner")]⟩)]
     ("sections/" ++ "foo" ++ ".liquid")).2 "foo" rfl (by decide) (by decide) (by decide)⟩

/-- C10 witness: a snapshot taken before an overwrite and a delete still
shows the original entry afterwards. -/
theorem snapshot_immune_to_cache_mutations_witness :
    (⟨[(0, [("layout/theme.liquid", "v1")])], 1, []⟩ : WatcherState).nextRef ≠ 0 ∧
    heapGet (applyCacheOps
        (getInMemoryTemplates ⟨[(0, [("layout/theme.liquid", "v1")])], 1, []⟩).2
        [.set "layout/theme.liquid" "v2" ⟨none⟩, .del "layout/theme.liquid"]).heap
      (getInMemoryTemplates ⟨[(0, [("layout/theme.liquid", "v1")])], 1, []⟩).1 =
      some [("layout/theme.liquid", "v1")] :=
  ⟨by decide,
   (snapshot_immune_to_cache_mutations ⟨[(0, [("layout/theme.liquid", "v1")])], 1, []⟩
     [.set "layout/theme.liquid" "v2" ⟨none⟩, .del "layout/theme.liquid"] (by decide)).2⟩

end ThemeCli
